import Mathlib

/-!
# Messaging API over a SQLite table and a Kafka producer (`src/main.go`)

A shallow embedding of the request path of `main.go`.

* The `messages` table is a list of `(id, topic, message)` rows kept in rowid order,
  together with the AUTOINCREMENT high-water mark.  A table scan visits rows in rowid
  order, an INSERT receives a rowid above every rowid ever used, so it lands at the end.
* Everything the program does to the outside is recorded as an `Event` in the order of
  the source statements: mutex operations, SQL statements, cursor reads, broker calls,
  console prints.
* What the outside answers is an explicit input: the error returned by each SQL
  statement, by each `rows.Next()` and `rows.Scan`, by `kafka.NewProducer`, by
  `p.Produce`, the delivery report, and the JSON decoder (a function from the request
  body to an optional `Message`).
* A Go slice distinguishes `nil` from an allocated slice, because `encoding/json`
  writes the former as `null` and the latter as an array.
-/

namespace MessagingApi

/-! ## Go values -/

/-- Go `error`: `none` is `nil`, `some s` an error with text `s`. -/
abbrev GoError := Option String

/-- Go slice of `α`: `nil` is the zero value of `var s []α`, `mk xs` an allocated slice. -/
inductive Slice (α : Type) where
  | nil : Slice α
  | mk (elems : List α) : Slice α
  deriving DecidableEq, Repr

namespace Slice

/-- Elements of a slice; the nil slice has none. -/
def toList {α : Type} : Slice α → List α
  | nil => []
  | mk xs => xs

/-- Go `len(s)`. -/
def len {α : Type} (s : Slice α) : Nat := s.toList.length

/-- Go `append(s, x)`: always an allocated slice. -/
def append {α : Type} (s : Slice α) (x : α) : Slice α := mk (s.toList ++ [x])

end Slice

/-- Struct `Message` of `main.go` (the incoming JSON message). -/
structure Message where
  topic : String
  message : String
  deriving DecidableEq, Repr

/-- Struct `MessageWithTopic` of `main.go`. -/
structure MessageWithTopic where
  topic : String
  message : String
  deriving DecidableEq, Repr

/-! ## JSON values written by `encoding/json` -/

/-- JSON value handed to the response writer. -/
inductive Json where
  | null : Json
  | str (s : String) : Json
  | arr (items : List Json) : Json
  | obj (fields : List (String × Json)) : Json

/-- Encoding of a `MessageWithTopic` by its struct tags. -/
def encodeMessageWithTopic (m : MessageWithTopic) : Json :=
  Json.obj [("topic", Json.str m.topic), ("message", Json.str m.message)]

/-- Encoding of a `[]MessageWithTopic`: a nil slice is written as `null`, an allocated
slice as an array of its elements. -/
def encodeMessages : Slice MessageWithTopic → Json
  | Slice.nil => Json.null
  | Slice.mk xs => Json.arr (xs.map encodeMessageWithTopic)

/-! ## HTTP responses -/

/-- Body of a response: `text s` is what `http.Error` writes (the line `s`), `json v`
what `json.NewEncoder(w).Encode` writes (the JSON text of `v` and a newline). -/
inductive Body where
  | text (line : String) : Body
  | json (v : Json) : Body

/-- Status code and body written to the `http.ResponseWriter`. -/
structure Response where
  status : Nat
  body : Body

/-- Constant `http.StatusOK`. -/
def StatusOK : Nat := 200
/-- Constant `http.StatusBadRequest`. -/
def StatusBadRequest : Nat := 400
/-- Constant `http.StatusInternalServerError`. -/
def StatusInternalServerError : Nat := 500

/-- Function `http.Error(w, msg, code)`. -/
def httpError (msg : String) (code : Nat) : Response := ⟨code, Body.text msg⟩

/-! ## The `messages` table -/

/-- One row of `messages (id INTEGER PRIMARY KEY AUTOINCREMENT, topic TEXT, message TEXT)`. -/
structure Row where
  id : Nat
  topic : String
  message : String
  deriving DecidableEq, Repr

/-- The table: its rows in rowid order and the largest rowid ever handed out
(`sqlite_sequence`). -/
structure Table where
  rows : List Row
  seq : Nat
  deriving DecidableEq, Repr

/-- Largest rowid present in a list of rows (0 when there is none). -/
def maxRowid (rows : List Row) : Nat := rows.foldr (fun r m => max r.id m) 0

/-- Rowid given to the next inserted row: one above every rowid present or ever used. -/
def Table.nextRowid (t : Table) : Nat := max t.seq (maxRowid t.rows) + 1

/-- Statement `INSERT INTO messages (topic, message) VALUES (?, ?)`, when it succeeds. -/
def Table.insert (t : Table) (topic message : String) : Table :=
  { rows := t.rows ++ [⟨t.nextRowid, topic, message⟩], seq := t.nextRowid }

/-- Rows matched by `WHERE topic = ?`, in scan order. -/
def Table.rowsOf (t : Table) (topic : String) : List Row :=
  t.rows.filter (fun r => r.topic = topic)

/-- Statement `SELECT message FROM messages WHERE topic = ?`, when it succeeds: the
`message` column of the matching rows, in scan order. -/
def Table.select (t : Table) (topic : String) : List String :=
  (t.rowsOf topic).map (fun r => r.message)

/-- Statement `DELETE FROM messages WHERE topic = ?`, when it succeeds. -/
def Table.delete (t : Table) (topic : String) : Table :=
  { rows := t.rows.filter (fun r => ¬ r.topic = topic), seq := t.seq }

/-! ## Events and the world -/

/-- What the program does to the mutex, the database handle, the broker client and the
console, one constructor per call in `main.go`. -/
inductive Event where
  | lock : Event
  | unlock : Event
  | execInsert (topic message : String) : Event
  | query (topic : String) : Event
  | rowsNext : Event
  | rowsScan : Event
  | rowsClose : Event
  | execDelete (topic : String) : Event
  | newProducer : Event
  | produce (topic value : String) : Event
  | deliveryReport (err : GoError) : Event
  | flush (timeoutMs : Nat) : Event
  | closeProducer : Event
  | print (s : String) : Event
  deriving DecidableEq, Repr

/-- The table and the events performed so far, oldest first. -/
structure World where
  table : Table
  trace : List Event
  deriving DecidableEq, Repr

/-- Record one event. -/
def World.emit (w : World) (e : Event) : World := { w with trace := w.trace ++ [e] }

/-! ## What the outside answers -/

/-- Answers met by one call of `KafkaProducer`. -/
structure ProduceEnv where
  /-- error of `db.Exec("INSERT ...")` -/
  insertErr : GoError
  /-- error of `kafka.NewProducer` -/
  sessionErr : GoError
  /-- error returned by `p.Produce` (the code drops it) -/
  produceErr : GoError
  /-- delivery report seen on `p.Events()` before the session closes, if any, with its
  `TopicPartition.Error` -/
  delivery : Option GoError
  deriving DecidableEq, Repr

/-- Answers met by one call of `KafkaConsumer`. -/
structure ReadEnv where
  /-- error of `db.Query("SELECT ...")` -/
  queryErr : GoError
  /-- error met by `rows.Next()` when it steps to the k-th row (counting from 0): the
  call then answers false and keeps the error for `rows.Err()` -/
  nextErr : Nat → GoError
  /-- error of `rows.Scan` at the k-th fetched row (counting from 0) -/
  scanErr : Nat → GoError

/-! ## `main.go` -/

/-- Call `db.Exec("INSERT INTO messages (topic, message) VALUES (?, ?)", topic, message)`:
a failed statement leaves the table as it was. -/
def dbExecInsert (err : GoError) (topic message : String) (w : World) : GoError × World :=
  let w := w.emit (Event.execInsert topic message)
  match err with
  | some e => (some e, w)
  | none => (none, { w with table := w.table.insert topic message })

/-- Call `db.Exec("DELETE FROM messages WHERE topic = ?", topic)`. -/
def dbExecDelete (err : GoError) (topic : String) (w : World) : GoError × World :=
  let w := w.emit (Event.execDelete topic)
  match err with
  | some e => (some e, w)
  | none => (none, { w with table := w.table.delete topic })

/-- Call `db.Query("SELECT message FROM messages WHERE topic = ?", topic)`: the cursor
over the matching messages, or the error. -/
def dbQuery (err : GoError) (topic : String) (w : World) : (List String × GoError) × World :=
  let w := w.emit (Event.query topic)
  match err with
  | some e => (([], some e), w)
  | none => ((w.table.select topic, none), w)

/-- Function `KafkaProducer` (main.go 62-101). -/
def KafkaProducer (env : ProduceEnv) (topic message : String) (w : World) : GoError × World :=
  let w := w.emit Event.lock
  let (err, w) := dbExecInsert env.insertErr topic message w
  let w := w.emit Event.unlock
  match err with
  | some e => (some e, w)
  | none =>
    let w := w.emit Event.newProducer
    match env.sessionErr with
    | some e => (some e, w)
    | none =>
      -- p.Produce(...); its error is not looked at
      let w := w.emit (Event.produce topic message)
      -- the delivery-report goroutine prints what arrives on p.Events()
      let w := match env.delivery with
        | some report => w.emit (Event.deliveryReport report)
        | none => w
      let w := w.emit (Event.flush (15 * 1000))
      -- defer p.Close()
      let w := w.emit Event.closeProducer
      (none, w)

/-- Loop `for rows.Next() { ... }` of `KafkaConsumer` (main.go 114-124): `cursor` holds
the messages still to fetch, `k` counts the rows fetched, `result` is the slice so far.
`rows.Next()` answers false when the cursor is exhausted and also when stepping to the
next row fails; `rows.Err()` is never read, so both leave the loop the same way, with
`result` as it stands and a nil error. -/
def scanLoop (env : ReadEnv) (topic : String) :
    List String → Nat → Slice MessageWithTopic → World →
      (Slice MessageWithTopic × GoError) × World
  | [], _, result, w => ((result, none), w.emit Event.rowsNext)
  | msg :: rest, k, result, w =>
    let w := w.emit Event.rowsNext
    match env.nextErr k with
    | some _ => ((result, none), w)
    | none =>
      let w := w.emit Event.rowsScan
      match env.scanErr k with
      | some e => ((Slice.nil, some e), w)
      | none => scanLoop env topic rest (k + 1) (result.append ⟨topic, msg⟩) w

/-- Function `KafkaConsumer` (main.go 104-125). -/
def KafkaConsumer (env : ReadEnv) (topic : String) (w : World) :
    (Slice MessageWithTopic × GoError) × World :=
  let w := w.emit Event.lock
  let ((cursor, err), w) := dbQuery env.queryErr topic w
  let w := w.emit Event.unlock
  match err with
  | some e => ((Slice.nil, some e), w)
  | none =>
    -- var result []MessageWithTopic
    let (ret, w) := scanLoop env topic cursor 0 Slice.nil w
    -- defer rows.Close()
    (ret, w.emit Event.rowsClose)

/-- Function `produceMessageHandler` (main.go 128-142); `decode` is
`json.NewDecoder(r.Body).Decode(&msg)`. -/
def produceMessageHandler (decode : String → Option Message) (env : ProduceEnv)
    (body : String) (w : World) : Response × World :=
  match decode body with
  | none => (httpError "Invalid request payload" StatusBadRequest, w)
  | some msg =>
    let (err, w) := KafkaProducer env msg.topic msg.message w
    match err with
    | some _ => (httpError "Failed to send message to Kafka" StatusInternalServerError, w)
    | none => (⟨StatusOK, Body.json (Json.str "Message sent to Kafka successfully")⟩, w)

/-- Function `getMessageHandler` (main.go 145-155); `topic` is `mux.Vars(r)["topic"]`. -/
def getMessageHandler (env : ReadEnv) (topic : String) (w : World) : Response × World :=
  let ((messages, err), w) := KafkaConsumer env topic w
  match err with
  | some _ => (httpError "Failed to retrieve messages" StatusInternalServerError, w)
  | none => (⟨StatusOK, Body.json (encodeMessages messages)⟩, w)

/-- Function `updateMessageHandler` (main.go 158-172). -/
def updateMessageHandler (decode : String → Option Message) (topic body : String)
    (w : World) : Response × World :=
  match decode body with
  | none => (httpError "Invalid request payload" StatusBadRequest, w)
  | some msg =>
    let w := w.emit
      (Event.print ("Updating message in topic " ++ topic ++ ": " ++ msg.message ++ "\n"))
    (⟨StatusOK, Body.json (Json.str "Message updated successfully (simulated)")⟩, w)

/-- Function `deleteMessageHandler` (main.go 175-191); `err` is the error of the DELETE
statement. -/
def deleteMessageHandler (err : GoError) (topic : String) (w : World) : Response × World :=
  let w := w.emit Event.lock
  let (err, w) := dbExecDelete err topic w
  let w := w.emit Event.unlock
  match err with
  | some _ => (httpError "Failed to delete messages" StatusInternalServerError, w)
  | none =>
    let w := w.emit
      (Event.print ("Deleting messages from topic " ++ topic ++ " (simulated)\n"))
    (⟨StatusOK, Body.json (Json.str "Messages deleted successfully (simulated)")⟩, w)

/-! ## Lock discipline -/

/-- Events that read or write the backing table. -/
def Event.accessesTable : Event → Bool
  | Event.execInsert _ _ => true
  | Event.query _ => true
  | Event.rowsNext => true
  | Event.rowsScan => true
  | Event.execDelete _ => true
  | _ => false

/-- Whether every table access of a trace happens while `mu` is held; `held` says
whether the caller holds `mu` at the start of the trace. -/
def lockedAccess : Bool → List Event → Bool
  | _, [] => true
  | _, Event.lock :: es => lockedAccess true es
  | _, Event.unlock :: es => lockedAccess false es
  | held, e :: es => (!e.accessesTable || held) && lockedAccess held es

/-! ## Sequences of produce requests -/

/-- A decoder accepting two well-formed bodies and rejecting everything else. -/
def sampleDecode (body : String) : Option Message :=
  if body = "\x7b\"topic\":\"orders\",\"message\":\"order-1\"\x7d" then
    some ⟨"orders", "order-1"⟩
  else if body = "\x7b\"topic\":\"audit\",\"message\":\"login\"\x7d" then
    some ⟨"audit", "login"⟩
  else none

/-- A table with two rows of topic `orders` and one of topic `audit`, and no events yet. -/
def sampleWorld : World :=
  ⟨⟨[⟨1, "orders", "order-0"⟩, ⟨2, "audit", "boot"⟩, ⟨5, "orders", "order-00"⟩], 7⟩, []⟩

/-- Every call of the producer path answers without error and the record is delivered. -/
def produceOk : ProduceEnv := ⟨none, none, none, some none⟩

/-- The SELECT, every `rows.Next()` and every `rows.Scan` answer without error. -/
def readOk : ReadEnv := ⟨none, fun _ => none, fun _ => none⟩

/-- The SELECT succeeds and `rows.Next()` fails while stepping to the second row. -/
def readBreaks : ReadEnv :=
  ⟨none, fun k => if k = 1 then some "disk I/O error" else none, fun _ => none⟩

/-- The INSERT statement fails; nothing else is ever asked. -/
def insertFails : ProduceEnv := ⟨some "database is locked", none, none, some none⟩

@[simp] theorem emit_table (w : World) (e : Event) : (w.emit e).table = w.table := rfl

@[simp] theorem emit_trace (w : World) (e : Event) :
    (w.emit e).trace = w.trace ++ [e] := rfl

theorem scanLoop_table (env : ReadEnv) (topic : String) (cursor : List String) :
    ∀ (k : Nat) (acc : Slice MessageWithTopic) (w : World),
      (scanLoop env topic cursor k acc w).2.table = w.table := by
  induction cursor with
  | nil => intro k acc w; simp [scanLoop]
  | cons msg rest ih =>
    intro k acc w
    simp only [scanLoop]
    cases hn : env.nextErr k with
    | some e => simp
    | none =>
      cases h : env.scanErr k with
      | none => simp [ih]
      | some e => simp

theorem scanLoop_result (env : ReadEnv) (topic : String) (cursor : List String) :
    ∀ (k : Nat) (acc : Slice MessageWithTopic) (w w' : World),
      (scanLoop env topic cursor k acc w).1 = (scanLoop env topic cursor k acc w').1 := by
  induction cursor with
  | nil => intro k acc w w'; simp [scanLoop]
  | cons msg rest ih =>
    intro k acc w w'
    simp only [scanLoop]
    cases hn : env.nextErr k with
    | some e => simp
    | none =>
      cases h : env.scanErr k with
      | none => simpa using ih _ _ _ _
      | some e => simp

theorem scanLoop_trace (env : ReadEnv) (topic : String) (cursor : List String) :
    ∀ (k : Nat) (acc : Slice MessageWithTopic) (w : World),
      ∃ rest, (scanLoop env topic cursor k acc w).2.trace =
        w.trace ++ Event.rowsNext :: rest := by
  induction cursor with
  | nil => intro k acc w; exact ⟨[], by simp [scanLoop]⟩
  | cons msg rest ih =>
    intro k acc w
    simp only [scanLoop]
    cases hn : env.nextErr k with
    | some e => exact ⟨[], by simp⟩
    | none =>
      cases h : env.scanErr k with
      | some e => exact ⟨[Event.rowsScan], by simp⟩
      | none =>
        obtain ⟨tl, htl⟩ := ih (k + 1) (acc.append ⟨topic, msg⟩)
          ((w.emit Event.rowsNext).emit Event.rowsScan)
        exact ⟨Event.rowsScan :: Event.rowsNext :: tl, by simp [htl]⟩

theorem KafkaConsumer_table (env : ReadEnv) (topic : String) (w : World) :
    (KafkaConsumer env topic w).2.table = w.table := by
  unfold KafkaConsumer dbQuery
  cases h : env.queryErr with
  | some e => simp
  | none => simp [scanLoop_table]

/-- What `KafkaConsumer` returns is fixed by the answers it meets and by the rows the
SELECT matches. -/
theorem KafkaConsumer_result (env : ReadEnv) (topic : String) (w w' : World)
    (h : w.table.select topic = w'.table.select topic) :
    (KafkaConsumer env topic w).1 = (KafkaConsumer env topic w').1 := by
  unfold KafkaConsumer dbQuery
  cases hq : env.queryErr with
  | some e => simp
  | none =>
    simp only [emit_table, h]
    exact scanLoop_result env topic _ _ _ _ _

/-- With no matching row the loop body never runs and the declared slice is returned as
it is: nil. -/
theorem KafkaConsumer_no_rows (env : ReadEnv) (topic : String) (w : World)
    (hq : env.queryErr = none) (h0 : w.table.rowsOf topic = []) :
    (KafkaConsumer env topic w).1 = (Slice.nil, none) := by
  unfold KafkaConsumer dbQuery
  simp [hq, Table.select, h0, scanLoop]

/-- When `rows.Next()` fails while stepping to the first row, `KafkaConsumer` returns the
nil slice and a nil error, whatever rows the SELECT matched. -/
theorem KafkaConsumer_first_next_fails (env : ReadEnv) (topic e : String) (w : World)
    (hq : env.queryErr = none) (hn : env.nextErr 0 = some e) :
    (KafkaConsumer env topic w).1 = (Slice.nil, none) := by
  unfold KafkaConsumer dbQuery
  simp only [hq, emit_table]
  cases hc : w.table.select topic with
  | nil => simp [scanLoop]
  | cons msg rest => simp [scanLoop, hn]

/-- On the sample table, whose topic `orders` has two rows, a read whose `rows.Next()`
fails while stepping to the second row returns the first message alone and a nil
error. -/
theorem KafkaConsumer_truncated_read :
    sampleWorld.table.select "orders" = ["order-0", "order-00"] ∧
    (KafkaConsumer readBreaks "orders" sampleWorld).1 =
      (Slice.mk [⟨"orders", "order-0"⟩], none) := by
  constructor <;> decide

/-! ## Facts about the table -/

theorem insert_rowsOf (t : Table) (a b topic : String) :
    (t.insert a b).rowsOf topic =
      t.rowsOf topic ++ (if a = topic then [⟨t.nextRowid, a, b⟩] else []) := by
  by_cases h : a = topic <;> simp [Table.insert, Table.rowsOf, List.filter_append, h]

theorem delete_rowsOf_self (t : Table) (topic : String) :
    (t.delete topic).rowsOf topic = [] := by
  simp [Table.delete, Table.rowsOf, List.filter_filter]

theorem delete_rowsOf_ne (t : Table) (topic other : String) (h : topic ≠ other) :
    (t.delete topic).rowsOf other = t.rowsOf other := by
  simp only [Table.delete, Table.rowsOf, List.filter_filter]
  apply List.filter_congr
  intro r _
  by_cases hr : r.topic = other
  · have hne : ¬ other = topic := fun h' => h h'.symm
    simp [hr, hne]
  · simp [hr]

theorem le_maxRowid (rows : List Row) : ∀ r ∈ rows, r.id ≤ maxRowid rows := by
  induction rows with
  | nil => intro r hr; cases hr
  | cons x xs ih =>
    intro r hr
    have hx : maxRowid (x :: xs) = max x.id (maxRowid xs) := rfl
    rcases List.mem_cons.mp hr with h | h
    · rw [hx, h]; exact le_max_left _ _
    · rw [hx]; exact le_trans (ih r h) (le_max_right _ _)

/-- An INSERT keeps the rows in increasing rowid order: the new row takes a rowid above
all the others and stands last, where a table scan meets it. -/
theorem insert_keeps_rowid_order (t : Table) (a b : String)
    (h : t.rows.Pairwise (fun r r' => r.id < r'.id)) :
    (t.insert a b).rows.Pairwise (fun r r' => r.id < r'.id) := by
  simp only [Table.insert, List.pairwise_append, List.pairwise_singleton, List.mem_singleton]
  refine ⟨h, trivial, ?_⟩
  intro r hr r' hr'
  subst hr'
  have h1 := le_maxRowid t.rows r hr
  have h2 : maxRowid t.rows ≤ max t.seq (maxRowid t.rows) := le_max_right _ _
  simp only [Table.nextRowid]
  omega

/-- A DELETE keeps the remaining rows in increasing rowid order. -/
theorem delete_keeps_rowid_order (t : Table) (topic : String)
    (h : t.rows.Pairwise (fun r r' => r.id < r'.id)) :
    (t.delete topic).rows.Pairwise (fun r r' => r.id < r'.id) :=
  h.sublist (List.filter_sublist _)

/-! ## Facts about the handlers -/

theorem KafkaProducer_insert_failed (env : ProduceEnv) (topic message e : String) (w : World)
    (h : env.insertErr = some e) :
    KafkaProducer env topic message w =
      (some e, { w with trace := w.trace ++
        [Event.lock, Event.execInsert topic message, Event.unlock] }) := by
  simp [KafkaProducer, dbExecInsert, h, World.emit]

theorem KafkaProducer_table (env : ProduceEnv) (topic message : String) (w : World)
    (h : env.insertErr = none) :
    (KafkaProducer env topic message w).2.table = w.table.insert topic message := by
  unfold KafkaProducer dbExecInsert
  simp only [h]
  cases hs : env.sessionErr with
  | some e => simp
  | none => cases hd : env.delivery <;> simp

theorem produce_table (decode : String → Option Message) (env : ProduceEnv) (body : String)
    (m : Message) (w : World) (hd : decode body = some m) (hi : env.insertErr = none) :
    (produceMessageHandler decode env body w).2.table = w.table.insert m.topic m.message := by
  have h := KafkaProducer_table env m.topic m.message w hi
  unfold produceMessageHandler
  simp only [hd]
  cases he : (KafkaProducer env m.topic m.message w).1 <;> simp [he, h]

theorem delete_table (topic : String) (w : World) :
    (deleteMessageHandler none topic w).2.table = w.table.delete topic := by
  simp [deleteMessageHandler, dbExecDelete]

theorem delete_failed_table (e topic : String) (w : World) :
    (deleteMessageHandler (some e) topic w).2.table = w.table := by
  simp [deleteMessageHandler, dbExecDelete]

/-- C2. From any table and for any topic `T`, once `deleteMessageHandler` has run for `T`
with a DELETE that succeeded, a `KafkaConsumer(T)` whose SELECT succeeds returns no error
and a slice of length 0, however many rows `T` had. -/
theorem delete_then_consume_empty (T : String) (w : World) (derr : GoError) (renv : ReadEnv)
    (hd : derr = none) (hq : renv.queryErr = none) :
    (KafkaConsumer renv T (deleteMessageHandler derr T w).2).1.2 = none ∧
    (KafkaConsumer renv T (deleteMessageHandler derr T w).2).1.1.len = 0 := by
  subst hd
  have h := KafkaConsumer_no_rows renv T (deleteMessageHandler none T w).2 hq
    (by rw [delete_table]; exact delete_rowsOf_self _ _)
  rw [h]
  exact ⟨rfl, rfl⟩

theorem delete_then_consume_empty_witness :
    (sampleWorld.table.rowsOf "orders").length = 2 ∧
    ((KafkaConsumer readOk "orders" (deleteMessageHandler none "orders" sampleWorld).2).1.2
        = none ∧
      (KafkaConsumer readOk "orders"
        (deleteMessageHandler none "orders" sampleWorld).2).1.1.len = 0) ∧
    (sampleWorld.table.rowsOf "payments").length = 0 ∧
    ((KafkaConsumer readOk "payments" (deleteMessageHandler none "payments" sampleWorld).2).1.2
        = none ∧
      (KafkaConsumer readOk "payments"
        (deleteMessageHandler none "payments" sampleWorld).2).1.1.len = 0) :=
  ⟨by decide, delete_then_consume_empty "orders" sampleWorld none readOk rfl rfl,
   by decide, delete_then_consume_empty "payments" sampleWorld none readOk rfl rfl⟩

/-- For a topic without rows and a SELECT that succeeds, `getMessageHandler` answers 200
and hands the encoder the nil slice, which is written as `null`. -/
theorem getMessageHandler_no_rows (renv : ReadEnv) (T : String) (w : World)
    (hq : renv.queryErr = none) (h0 : w.table.rowsOf T = []) :
    (getMessageHandler renv T w).1.status = 200 ∧
    (getMessageHandler renv T w).1.body = Body.json Json.null := by
  have h := KafkaConsumer_no_rows renv T w hq h0
  unfold getMessageHandler
  constructor
  · simp [h, StatusOK]
  · simp [h, encodeMessages]

/-- C3, at a failing input. The sample table has no row of topic `payments` and the
SELECT succeeds: `getMessageHandler` answers 200, the slice handed to the encoder is nil,
and the body is `null`, not the empty array. -/
theorem get_no_rows_writes_null :
    sampleWorld.table.rowsOf "payments" = [] ∧
    (KafkaConsumer readOk "payments" sampleWorld).1 = (Slice.nil, none) ∧
    (getMessageHandler readOk "payments" sampleWorld).1.status = 200 ∧
    (getMessageHandler readOk "payments" sampleWorld).1.body = Body.json Json.null ∧
    (getMessageHandler readOk "payments" sampleWorld).1.body ≠ Body.json (Json.arr []) := by
  have h0 : sampleWorld.table.rowsOf "payments" = [] := by decide
  have h := getMessageHandler_no_rows readOk "payments" sampleWorld rfl h0
  refine ⟨h0, KafkaConsumer_no_rows readOk "payments" sampleWorld rfl h0, h.1, h.2, ?_⟩
  rw [h.2]
  intro hc
  cases hc

/-- C4. For any table and any produce request whose body does not decode,
`produceMessageHandler` answers 400, leaves the table as it was and performs no event
at all: no INSERT, no producer session, no record submitted. -/
theorem malformed_produce (decode : String → Option Message) (env : ProduceEnv)
    (body : String) (w : World) (hd : decode body = none) :
    (produceMessageHandler decode env body w).1.status = 400 ∧
    (produceMessageHandler decode env body w).2.table = w.table ∧
    (produceMessageHandler decode env body w).2.trace = w.trace := by
  simp [produceMessageHandler, hd, httpError, StatusBadRequest]

theorem malformed_produce_witness :
    sampleDecode "\x7b\"topic\":" = none ∧
    (produceMessageHandler sampleDecode produceOk "\x7b\"topic\":" sampleWorld).1.status
      = 400 ∧
    (produceMessageHandler sampleDecode produceOk "\x7b\"topic\":" sampleWorld).2.table
      = sampleWorld.table ∧
    (produceMessageHandler sampleDecode produceOk "\x7b\"topic\":" sampleWorld).2.trace
      = sampleWorld.trace :=
  ⟨by decide,
   malformed_produce sampleDecode produceOk "\x7b\"topic\":" sampleWorld (by decide)⟩

/-- C5. For any table, path topic and request body, decodable or not,
`updateMessageHandler` leaves the table as it was, so for every topic `T` and whatever
the read meets, `KafkaConsumer(T)` returns the same before and after the update. -/
theorem update_leaves_store (decode : String → Option Message) (topic body : String)
    (w : World) (renv : ReadEnv) (T : String) :
    (updateMessageHandler decode topic body w).2.table = w.table ∧
    (KafkaConsumer renv T (updateMessageHandler decode topic body w).2).1 =
      (KafkaConsumer renv T w).1 := by
  have ht : (updateMessageHandler decode topic body w).2.table = w.table := by
    unfold updateMessageHandler
    cases decode body <;> simp
  exact ⟨ht, KafkaConsumer_result renv T _ _ (by rw [ht])⟩

/-- C6. For any produce request whose body decodes and whose INSERT fails,
`KafkaProducer` returns that error having only locked, executed the INSERT and unlocked
(no producer session is created and no record submitted), `produceMessageHandler`
answers 500, and the table is as it was. -/
theorem insert_failure_short_circuits (decode : String → Option Message) (env : ProduceEnv)
    (body : String) (m : Message) (e : String) (w : World)
    (hd : decode body = some m) (hi : env.insertErr = some e) :
    (KafkaProducer env m.topic m.message w).1 = some e ∧
    (KafkaProducer env m.topic m.message w).2.trace =
      w.trace ++ [Event.lock, Event.execInsert m.topic m.message, Event.unlock] ∧
    (produceMessageHandler decode env body w).1.status = 500 ∧
    (produceMessageHandler decode env body w).2.table = w.table ∧
    (produceMessageHandler decode env body w).2.trace =
      w.trace ++ [Event.lock, Event.execInsert m.topic m.message, Event.unlock] := by
  have h := KafkaProducer_insert_failed env m.topic m.message e w hi
  simp [produceMessageHandler, hd, h, httpError, StatusInternalServerError]

theorem insert_failure_short_circuits_witness :
    (KafkaProducer insertFails "orders" "order-1" sampleWorld).1
      = some "database is locked" ∧
    (KafkaProducer insertFails "orders" "order-1" sampleWorld).2.trace =
      [Event.lock, Event.execInsert "orders" "order-1", Event.unlock] ∧
    (produceMessageHandler sampleDecode insertFails
      "\x7b\"topic\":\"orders\",\"message\":\"order-1\"\x7d" sampleWorld).1.status = 500 ∧
    (produceMessageHandler sampleDecode insertFails
      "\x7b\"topic\":\"orders\",\"message\":\"order-1\"\x7d" sampleWorld).2.table
        = sampleWorld.table ∧
    (produceMessageHandler sampleDecode insertFails
      "\x7b\"topic\":\"orders\",\"message\":\"order-1\"\x7d" sampleWorld).2.trace =
      [Event.lock, Event.execInsert "orders" "order-1", Event.unlock] :=
  insert_failure_short_circuits sampleDecode insertFails
    "\x7b\"topic\":\"orders\",\"message\":\"order-1\"\x7d" ⟨"orders", "order-1"⟩
    "database is locked" sampleWorld (by decide) rfl

/-- C8. For any table and topic, `deleteMessageHandler` answers 200 exactly when the
DELETE statement returns no error, whatever rows the table holds, and 500 exactly when
the DELETE statement returns an error. -/
theorem delete_status (derr : GoError) (topic : String) (w : World) :
    ((deleteMessageHandler derr topic w).1.status = 200 ↔ derr = none) ∧
    ((deleteMessageHandler derr topic w).1.status = 500 ↔ ∃ e, derr = some e) := by
  cases derr with
  | none => simp [deleteMessageHandler, dbExecDelete, StatusOK]
  | some e =>
    simp [deleteMessageHandler, dbExecDelete, httpError, StatusInternalServerError]

/-- C10. For any table and distinct topics `T` and `T'`: a produce request whose message
has topic `T` (whatever its INSERT and publisher meet) and a delete request for `T`
(whether its DELETE succeeds or not) both leave the rows of `T'`, ids included and in
order, as they were, and leave what `KafkaConsumer(T')` returns unchanged, whatever the
read meets. -/
theorem topic_isolation (decode : String → Option Message) (env : ProduceEnv)
    (body : String) (m : Message) (derr : GoError) (renv : ReadEnv) (T T' : String)
    (w : World) (hd : decode body = some m) (hm : m.topic = T) (hne : T ≠ T') :
    ((produceMessageHandler decode env body w).2.table.rowsOf T' = w.table.rowsOf T' ∧
      (KafkaConsumer renv T' (produceMessageHandler decode env body w).2).1 =
        (KafkaConsumer renv T' w).1) ∧
    ((deleteMessageHandler derr T w).2.table.rowsOf T' = w.table.rowsOf T' ∧
      (KafkaConsumer renv T' (deleteMessageHandler derr T w).2).1 =
        (KafkaConsumer renv T' w).1) := by
  subst hm
  have hp : (produceMessageHandler decode env body w).2.table.rowsOf T' =
      w.table.rowsOf T' := by
    cases hi : env.insertErr with
    | none => rw [produce_table decode env body m w hd hi, insert_rowsOf]; simp [hne]
    | some e =>
      have h := KafkaProducer_insert_failed env m.topic m.message e w hi
      simp [produceMessageHandler, hd, h]
  have hdl : (deleteMessageHandler derr m.topic w).2.table.rowsOf T' = w.table.rowsOf T' := by
    cases derr with
    | none => rw [delete_table]; exact delete_rowsOf_ne _ _ _ hne
    | some e => rw [delete_failed_table]
  exact ⟨⟨hp, KafkaConsumer_result renv T' _ _ (by simp [Table.select, hp])⟩,
    ⟨hdl, KafkaConsumer_result renv T' _ _ (by simp [Table.select, hdl])⟩⟩

theorem topic_isolation_witness :
    ((produceMessageHandler sampleDecode produceOk
        "\x7b\"topic\":\"orders\",\"message\":\"order-1\"\x7d" sampleWorld).2.table.rowsOf
          "audit" = [⟨2, "audit", "boot"⟩] ∧
      (KafkaConsumer readOk "audit" (produceMessageHandler sampleDecode produceOk
        "\x7b\"topic\":\"orders\",\"message\":\"order-1\"\x7d" sampleWorld).2).1 =
        (KafkaConsumer readOk "audit" sampleWorld).1) ∧
    ((deleteMessageHandler none "orders" sampleWorld).2.table.rowsOf "audit"
        = [⟨2, "audit", "boot"⟩] ∧
      (KafkaConsumer readOk "audit" (deleteMessageHandler none "orders" sampleWorld).2).1 =
        (KafkaConsumer readOk "audit" sampleWorld).1) :=
  topic_isolation sampleDecode produceOk
    "\x7b\"topic\":\"orders\",\"message\":\"order-1\"\x7d" ⟨"orders", "order-1"⟩ none readOk
    "orders" "audit" sampleWorld (by decide) rfl (by decide)

/-! ## Lock discipline of the three paths -/

/-- Every table access of `KafkaProducer` happens with `mu` held. -/
theorem KafkaProducer_lockedAccess (env : ProduceEnv) (topic message : String) (t : Table) :
    lockedAccess false (KafkaProducer env topic message ⟨t, []⟩).2.trace = true := by
  unfold KafkaProducer dbExecInsert
  cases hi : env.insertErr with
  | some e => simp [World.emit, lockedAccess, Event.accessesTable]
  | none =>
    cases hs : env.sessionErr with
    | some e => simp [World.emit, lockedAccess, Event.accessesTable]
    | none =>
      cases hd : env.delivery <;> simp [World.emit, lockedAccess, Event.accessesTable]

/-- Every table access of `deleteMessageHandler` happens with `mu` held. -/
theorem deleteMessageHandler_lockedAccess (derr : GoError) (topic : String) (t : Table) :
    lockedAccess false (deleteMessageHandler derr topic ⟨t, []⟩).2.trace = true := by
  unfold deleteMessageHandler dbExecDelete
  cases derr <;> simp [World.emit, lockedAccess, Event.accessesTable]

/-- Whenever the SELECT of `KafkaConsumer` succeeds, the first `rows.Next()` comes after
`mu.Unlock()`: the result rows are read without `mu`. -/
theorem KafkaConsumer_reads_unlocked (nextErr scanErr : Nat → GoError) (topic : String)
    (t : Table) :
    lockedAccess false (KafkaConsumer ⟨none, nextErr, scanErr⟩ topic ⟨t, []⟩).2.trace
      = false := by
  unfold KafkaConsumer dbQuery
  obtain ⟨rest, h⟩ := scanLoop_trace ⟨none, nextErr, scanErr⟩ topic (t.select topic) 0
    Slice.nil
    ⟨t, [Event.lock, Event.query topic, Event.unlock]⟩
  simp [World.emit, h, lockedAccess, Event.accessesTable]

/-- C9, at a failing input. `KafkaConsumer("audit")` on the sample table, with a SELECT
that succeeds, performs `rows.Next()` and `rows.Scan` after `mu.Unlock()`: not every
table access happens with `mu` held. -/
theorem consumer_reads_rows_after_unlock :
    (KafkaConsumer readOk "audit" sampleWorld).2.trace =
      [Event.lock, Event.query "audit", Event.unlock,
       Event.rowsNext, Event.rowsScan, Event.rowsNext, Event.rowsClose] ∧
    lockedAccess false (KafkaConsumer readOk "audit" sampleWorld).2.trace = false := by
  constructor
  · decide
  · decide

end MessagingApi
